import Mathlib

/-
Shallow embedding of src/api_layer_demo.py: a payment initiation and
settlement service in front of a legacy core-banking adapter.

Modelling conventions:
* Python floats for money amounts and FX rates are modelled as exact
  rationals (ℚ); Python's `round(x, 2)` (round-half-to-even) is `round2`.
* `time.time()` / `datetime.utcnow()` timestamps are abstract `Nat` clock
  values passed explicitly to each operation.
* `uuid4()` payment identifiers are modelled as the successive values of a
  fresh-id counter carried by the adapter state.
* Python dicts (payments ledger, webhook registry, per-user rate-limit
  windows) are association lists in insertion order; assignment replaces
  the entry in place, exactly like CPython dict assignment.
* An HTTP POST made by `requests.post` either completes with some status
  code or raises (transport error / timeout); `requests.post` does NOT
  raise for non-2xx codes, which the embedding preserves.
* Each FastAPI endpoint becomes a function from the global state (adapter,
  webhook registry, audit log, metrics, rate-limit windows) to a result
  plus the new state; the BackgroundTasks task of `instant_settle` is the
  separate function `async_settle`, run as its own step so that
  interleavings with status reads are represented.
-/

/-- A payment request body (model of `PaymentRequest`, lines 13-18). -/
structure PaymentRequest where
  from_account : String
  to_account : String
  amount : ℚ
  currency : String
  target_currency : Option String
deriving DecidableEq

/-- A ledger record stored by the adapter (the dict built at lines 38-42). -/
structure PaymentRec where
  request : PaymentRequest
  status : String
  settlement_time : Option Nat
deriving DecidableEq

/-- The legacy core-banking adapter: ledger of payments plus the fresh-id
counter standing in for `uuid4()` (class `LegacyCBSAdapter`, lines 31-57). -/
structure LegacyCBSAdapter where
  payments : List (Nat × PaymentRec)
  nextId : Nat
deriving DecidableEq

/-- Association-list lookup for the payments dict (`self.payments.get`). -/
def assocFind : List (Nat × PaymentRec) → Nat → Option PaymentRec
  | [], _ => none
  | e :: rest, payment_id => if e.1 = payment_id then some e.2 else assocFind rest payment_id

/-- `LegacyCBSAdapter.initiate_payment` (lines 35-43): assign a fresh id and
store a record with status "pending" and no settlement time. -/
def LegacyCBSAdapter.initiate_payment (c : LegacyCBSAdapter) (req : PaymentRequest) :
    Nat × LegacyCBSAdapter :=
  let payment_id := c.nextId
  (payment_id,
    { payments := c.payments ++
        [(payment_id, { request := req, status := "pending", settlement_time := none })],
      nextId := c.nextId + 1 })

/-- `LegacyCBSAdapter.get_status` (lines 45-49). -/
def LegacyCBSAdapter.get_status (c : LegacyCBSAdapter) (payment_id : Nat) : Option PaymentRec :=
  assocFind c.payments payment_id

/-- `LegacyCBSAdapter.settle_payment` (lines 51-57): if the payment exists,
overwrite its status with "settled" and its settlement time with the
current clock (unconditionally, even if it was already settled). -/
def LegacyCBSAdapter.settle_payment (c : LegacyCBSAdapter) (payment_id : Nat) (now : Nat) :
    Option PaymentRec × LegacyCBSAdapter :=
  match c.get_status payment_id with
  | none => (none, c)
  | some payment =>
      let payment' := { payment with status := "settled", settlement_time := some now }
      (some payment',
        { c with payments :=
            c.payments.map (fun e => if e.1 = payment_id then (payment_id, payment') else e) })

/-- The static FX rate table `FX_RATES` (lines 177-184). -/
def FX_RATES : List ((String × String) × ℚ) :=
  [(("USD", "EUR"), 0.92), (("EUR", "USD"), 1.09),
   (("USD", "GBP"), 0.80), (("GBP", "USD"), 1.25),
   (("EUR", "GBP"), 0.87), (("GBP", "EUR"), 1.15)]

/-- `get_fx_rate` (lines 186-189). -/
def get_fx_rate (src tgt : String) : Option ℚ :=
  if src = tgt then some 1
  else (FX_RATES.find? (fun e => e.1.1 == src && e.1.2 == tgt)).map (·.2)

/-- Python's `round(q, 2)`: round to 2 decimal places, ties to even. -/
def round2 (q : ℚ) : ℚ :=
  let x := q * 100
  let f : Int := Int.floor x
  let frac : ℚ := x - f
  let r : Int :=
    if frac < 1 / 2 then f
    else if 1 / 2 < frac then f + 1
    else if f % 2 = 0 then f else f + 1
  (r : ℚ) / 100

/-- Python truthiness of an optional string: `None` and `""` are falsy. -/
def pyTruthyStr : Option String → Bool
  | none => false
  | some s => s != ""

/-- Python `t or c` for an optional string `t` and default `c`
(`req.target_currency or req.currency`). -/
def pyOrStr (t : Option String) (c : String) : String :=
  match t with
  | some s => if s = "" then c else s
  | none => c

/-- The structured `details` payloads passed to `log_action` / appended to
the audit log, one constructor per call site. -/
inductive Details where
  | rate_limit_exceeded (count : Nat)
  | fraud_detected (flags : List String) (req : PaymentRequest)
  | initiate_payment_failed (reason : String) (req : PaymentRequest)
  | initiate_payment (payment_id : Nat) (req : PaymentRequest)
      (fx_rate : Option ℚ) (converted_amount : Option ℚ) (target_currency : String)
  | batch_initiate_payment (payment_id : Nat) (req : PaymentRequest)
      (fx_rate : Option ℚ) (converted_amount : Option ℚ) (target_currency : String)
  | check_status_failed (payment_id : Nat)
  | check_status (payment_id : Nat) (status : String)
  | instant_settle_failed (payment_id : Nat)
  | instant_settle_requested (payment_id : Nat)
  | instant_settle (payment_id : Nat) (status : String) (settlement_time : Option Nat)
      (fx_rate : Option ℚ) (converted_amount : Option ℚ) (target_currency : String)
  | webhook_failed (payment_id : Nat) (url : String) (status : String)
  | register_webhook (payment_id : Nat) (url : String)
deriving DecidableEq

/-- One audit-log entry (the dict appended by `log_action`, lines 115-121;
`user` is `none` for system actions such as a failed webhook delivery). -/
structure AuditEntry where
  timestamp : Nat
  user : Option String
  action : String
  details : Details
deriving DecidableEq

/-- The process-wide counters `metrics` (lines 108-113). -/
structure Metrics where
  total_requests : Nat
  successful_payments : Nat
  rate_limit_hits : Nat
  fraud_blocks : Nat
deriving DecidableEq

/-- The whole mutable global state of the module: the adapter, the webhook
registry (lines 101-102), the audit log (lines 104-105), the metrics
(lines 107-113) and the memoized per-user rate-limit windows attached to
`initiate_payment` (lines 198-199). -/
structure SysState where
  cbs_adapter : LegacyCBSAdapter
  webhooks : List (Nat × String)
  audit_log : List AuditEntry
  metrics : Metrics
  user_requests : List (String × List Nat)
deriving DecidableEq

/-- `log_action` (lines 115-121). -/
def log_action (st : SysState) (now : Nat) (user : Option String) (action : String)
    (details : Details) : SysState :=
  { st with audit_log := st.audit_log ++
      [{ timestamp := now, user := user, action := action, details := details }] }

/-- Lookup in the per-user rate-limit window dict. -/
def lookupUserReqs : List (String × List Nat) → String → Option (List Nat)
  | [], _ => none
  | e :: rest, u => if e.1 = u then some e.2 else lookupUserReqs rest u

/-- Dict assignment `initiate_payment.user_requests[user] = user_reqs`:
replace in place if present, append otherwise. -/
def setUserReqs : List (String × List Nat) → String → List Nat → List (String × List Nat)
  | [], u, v => [(u, v)]
  | e :: rest, u, v => if e.1 = u then (u, v) :: rest else e :: setUserReqs rest u v

/-- `dict.setdefault(user, [])` (line 201): insert an empty window if the
user has none, otherwise leave the dict alone. -/
def setdefaultUser (m : List (String × List Nat)) (u : String) : List (String × List Nat) :=
  match lookupUserReqs m u with
  | some _ => m
  | none => m ++ [(u, [])]

/-- Lookup in the webhook registry (`webhooks.get(payment_id)`, line 284). -/
def webhooksGet : List (Nat × String) → Nat → Option String
  | [], _ => none
  | e :: rest, payment_id => if e.1 = payment_id then some e.2 else webhooksGet rest payment_id

/-- `webhooks[reg.payment_id] = reg.url` (line 346): last write wins. -/
def webhooksSet : List (Nat × String) → Nat → String → List (Nat × String)
  | [], payment_id, url => [(payment_id, url)]
  | e :: rest, payment_id, url =>
      if e.1 = payment_id then (payment_id, url) :: rest else e :: webhooksSet rest payment_id url

/-- Response model of the `initiate_payment` endpoint (`PaymentStatus`,
lines 20-28). -/
structure PaymentStatus where
  payment_id : Nat
  status : String
  settlement_time : Option Nat
  amount : Option ℚ
  currency : Option String
  fx_rate : Option ℚ
  converted_amount : Option ℚ
  target_currency : Option String
deriving DecidableEq

/-- Outcome of one `POST /v1/payments` call: the three `HTTPException`
rejections (429, 403, 400) or the 200 response body. -/
inductive InitiateResult where
  | rateLimited
  | fraudDetected (flags : List String)
  | fxUnavailable
  | ok (ps : PaymentStatus)
deriving DecidableEq

/-- `RATE_LIMIT = 10` (line 196). -/
def RATE_LIMIT : Nat := 10

/-- `WINDOW = 60` (line 197). -/
def WINDOW : Nat := 60

/-- `FRAUD_AMOUNT = 10000.0` (line 212). -/
def FRAUD_AMOUNT : ℚ := 10000

/-- `SUSPICIOUS_ACCOUNTS` (line 213). -/
def SUSPICIOUS_ACCOUNTS : List String := ["FAKE123", "TEST999"]

/-- The fraud flag list built at lines 214-218: `high_amount` if the amount
exceeds the ceiling, then `suspicious_account` if the destination is
denylisted (both reported together when both fire). -/
def fraud_flags (req : PaymentRequest) : List String :=
  (if FRAUD_AMOUNT < req.amount then ["high_amount"] else []) ++
  (if req.to_account ∈ SUSPICIOUS_ACCOUNTS then ["suspicious_account"] else [])

/-- The rate-limiting section of `initiate_payment` (lines 194-209):
bump `total_requests`, `setdefault` the user's window, evict entries older
than `WINDOW`, and either reject (counter bumped, audit entry, window dict
left with the unfiltered list because the write-back at line 209 is not
reached) or append the current timestamp and write the window back.
Returns (admitted?, evicted window, new state). -/
def rateLimitPhase (st0 : SysState) (user : String) (now : Nat) :
    Bool × List Nat × SysState :=
  let st := { st0 with
    metrics := { st0.metrics with total_requests := st0.metrics.total_requests + 1 }
    user_requests := setdefaultUser st0.user_requests user }
  let user_reqs := (lookupUserReqs st.user_requests user).getD []
  let filtered := user_reqs.filter (fun t => now - t < WINDOW)
  if RATE_LIMIT ≤ filtered.length then
    (false, filtered,
      log_action
        { st with metrics :=
            { st.metrics with rate_limit_hits := st.metrics.rate_limit_hits + 1 } }
        now (some user) "rate_limit_exceeded" (.rate_limit_exceeded filtered.length))
  else
    (true, filtered,
      { st with user_requests := setUserReqs st.user_requests user (filtered ++ [now]) })

/-- The FX-conversion section of `initiate_payment` (lines 224-235, also
reused verbatim in the batch loop, lines 157-166): `none` means the
`UnsupportedCurrencyPair` rejection; otherwise the pair
(fx_rate, converted_amount). Conversion happens only when a truthy target
currency differing from the source is requested. -/
def fxStep (req : PaymentRequest) : Option (Option ℚ × ℚ) :=
  match req.target_currency with
  | some t =>
      if t ≠ "" ∧ t ≠ req.currency then
        match get_fx_rate req.currency t with
        | none => none
        | some r => some (some r, round2 (req.amount * r))
      else some (none, req.amount)
  | none => some (none, req.amount)

/-- The `POST /v1/payments` endpoint `initiate_payment` (lines 191-247):
rate limiting, then fraud screening, then FX conversion, then record
creation plus metrics and audit updates. -/
def initiate_payment (st0 : SysState) (user : String) (now : Nat) (req : PaymentRequest) :
    InitiateResult × SysState :=
  let rl := rateLimitPhase st0 user now
  let st := rl.2.2
  if rl.1 = false then (.rateLimited, st)
  else if fraud_flags req = [] then
    let target_currency := pyOrStr req.target_currency req.currency
    match fxStep req with
    | none =>
        (.fxUnavailable,
          log_action st now (some user) "initiate_payment_failed"
            (.initiate_payment_failed "FX rate not found" req))
    | some fx =>
        let pr := st.cbs_adapter.initiate_payment req
        let st := { st with
          cbs_adapter := pr.2
          metrics := { st.metrics with
            successful_payments := st.metrics.successful_payments + 1 } }
        let st := log_action st now (some user) "initiate_payment"
            (.initiate_payment pr.1 req fx.1 (some fx.2) target_currency)
        (.ok { payment_id := pr.1, status := "pending", settlement_time := none,
               amount := some req.amount, currency := some req.currency,
               fx_rate := fx.1, converted_amount := some fx.2,
               target_currency := some target_currency }, st)
  else
    (.fraudDetected (fraud_flags req),
      log_action
        { st with metrics :=
            { st.metrics with fraud_blocks := st.metrics.fraud_blocks + 1 } }
        now (some user) "fraud_detected" (.fraud_detected (fraud_flags req) req))

/-- One result entry of the batch endpoint: a created payment or the
caught-exception dict `{"error": ..., "payment": ...}` (lines 169, 172). -/
inductive BatchItem where
  | ok (payment_id : Nat) (amount : ℚ) (currency : String)
      (converted_amount : ℚ) (target_currency : String)
  | err (msg : String) (req : PaymentRequest)
deriving DecidableEq

/-- One iteration of the batch loop body (lines 154-173): FX conversion and
record creation, with NO rate limiting and NO fraud screening. -/
def batchItem (st : SysState) (user : String) (now : Nat) (req : PaymentRequest) :
    BatchItem × SysState :=
  let target_currency := pyOrStr req.target_currency req.currency
  match fxStep req with
  | none => (.err "FX rate not available" req, st)
  | some (fx_rate, converted_amount) =>
      let pr := st.cbs_adapter.initiate_payment req
      let st := { st with cbs_adapter := pr.2 }
      let st := log_action st now (some user) "batch_initiate_payment"
          (.batch_initiate_payment pr.1 req fx_rate (some converted_amount) target_currency)
      (.ok pr.1 req.amount req.currency converted_amount target_currency, st)

/-- The loop of `batch_payments` over the request list, accumulating the
result list and the success / failure counters. -/
def batchLoop (st : SysState) (user : String) (now : Nat) :
    List PaymentRequest → (List BatchItem × Nat × Nat) × SysState
  | [] => (([], 0, 0), st)
  | req :: rest =>
      let p := batchItem st user now req
      let q := batchLoop p.2 user now rest
      match p.1 with
      | .ok .. => ((p.1 :: q.1.1, q.1.2.1 + 1, q.1.2.2), q.2)
      | .err .. => ((p.1 :: q.1.1, q.1.2.1, q.1.2.2 + 1), q.2)

/-- Response model of the batch endpoint (`BatchPaymentResult`,
lines 66-68, with the summary dict of line 174 split into fields). -/
structure BatchPaymentResult where
  results : List BatchItem
  success : Nat
  failed : Nat
  total : Nat
deriving DecidableEq

/-- The `POST /v1/payments/batch` endpoint `batch_payments` (lines 149-174). -/
def batch_payments (st : SysState) (user : String) (now : Nat)
    (reqs : List PaymentRequest) : BatchPaymentResult × SysState :=
  let p := batchLoop st user now reqs
  ({ results := p.1.1, success := p.1.2.1, failed := p.1.2.2, total := reqs.length }, p.2)

/-- The FX display computation shared by `check_status` (lines 261-268) and
`instant_settle` (lines 316-323): unlike admission, a missing rate does not
reject, it just leaves the converted amount absent; note the Python
truthiness test `if fx_rate`, under which a zero rate also yields `None`. -/
def statusFx (req : PaymentRequest) : Option ℚ × Option ℚ :=
  match req.target_currency with
  | some t =>
      if t ≠ "" ∧ req.currency ≠ t then
        match get_fx_rate req.currency t with
        | none => (none, none)
        | some r => (some r, if r = 0 then none else some (round2 (req.amount * r)))
      else (none, some req.amount)
  | none => (none, some req.amount)

/-- The `GET /v1/payments/{id}/status` endpoint `check_status`
(lines 253-279); `none` is the 404 rejection. -/
def check_status (st : SysState) (user : String) (now : Nat) (payment_id : Nat) :
    Option PaymentStatus × SysState :=
  match st.cbs_adapter.get_status payment_id with
  | none =>
      (none, log_action st now (some user) "check_status_failed"
        (.check_status_failed payment_id))
  | some payment =>
      let req := payment.request
      let target_currency := pyOrStr req.target_currency req.currency
      let fx := statusFx req
      let st := log_action st now (some user) "check_status"
          (.check_status payment_id payment.status)
      (some { payment_id := payment_id, status := payment.status,
              settlement_time := payment.settlement_time,
              amount := some req.amount, currency := some req.currency,
              fx_rate := fx.1, converted_amount := fx.2,
              target_currency := some target_currency }, st)

/-- Outcome of one delivery attempt: the POST completed with some HTTP
status code, or it raised (timeout / transport error). -/
inductive HttpOutcome where
  | response (code : Nat)
  | transportError
deriving DecidableEq

/-- Whether the attempt completed with an HTTP response (of any code). -/
def HttpOutcome.isResponse : HttpOutcome → Bool
  | .response _ => true
  | .transportError => false

/-- The retry loop of `send_webhook` (lines 287-297): try up to the given
number of remaining attempts; `requests.post` returning (with ANY status
code) ends the loop with success, an exception sleeps, doubles the delay
and retries. Returns the outcomes of the attempts made and the success
flag. -/
def webhookAttempts (endpoint : Nat → HttpOutcome) : Nat → Nat → List HttpOutcome × Bool
  | _, 0 => ([], false)
  | attempt, remaining + 1 =>
      match endpoint attempt with
      | .response c => ([.response c], true)
      | .transportError =>
          let p := webhookAttempts endpoint (attempt + 1) remaining
          (.transportError :: p.1, p.2)

/-- `send_webhook` (lines 281-305): look up the subscription and guard the
whole delivery block with `if url:` — Python truthiness, under which both
an absent subscription and a registered EMPTY-STRING URL are falsy and drop
the event with no attempts, returning False. For a truthy URL run the
retry loop, and if every attempt failed append a `webhook_failed` audit
entry (user `none`) with the payment id, URL and reported status. Returns
((returned value, attempt outcomes), new state). -/
def send_webhook (st : SysState) (endpoint : Nat → HttpOutcome) (now : Nat)
    (payment_id : Nat) (status : String) (settlement_time : Option Nat)
    (max_retries : Nat) : (Bool × List HttpOutcome) × SysState :=
  match webhooksGet st.webhooks payment_id with
  | none => ((false, []), st)
  | some url =>
      if url = "" then ((false, []), st)
      else
        let p := webhookAttempts endpoint 0 max_retries
        if p.2 then ((true, p.1), st)
        else
          ((false, p.1),
            { st with audit_log := st.audit_log ++
                [{ timestamp := now, user := none, action := "webhook_failed",
                   details := .webhook_failed payment_id url status }] })

/-- The `POST /v1/payments/{id}/settle` endpoint `instant_settle`
(lines 310-341), WITHOUT its background task: it only validates existence,
logs `instant_settle_requested`, and answers with a transient "settling"
status (never stored in the ledger). `none` is the 404 rejection. -/
def instant_settle (st : SysState) (user : String) (now : Nat) (payment_id : Nat) :
    Option PaymentStatus × SysState :=
  match st.cbs_adapter.get_status payment_id with
  | none =>
      (none, log_action st now (some user) "instant_settle_failed"
        (.instant_settle_failed payment_id))
  | some payment =>
      let req := payment.request
      let target_currency := pyOrStr req.target_currency req.currency
      let fx := statusFx req
      let st := log_action st now (some user) "instant_settle_requested"
          (.instant_settle_requested payment_id)
      (some { payment_id := payment_id, status := "settling", settlement_time := none,
              amount := some req.amount, currency := some req.currency,
              fx_rate := fx.1, converted_amount := fx.2,
              target_currency := some target_currency }, st)

/-- The background task `async_settle` (lines 325-329): settle the payment;
if it existed, log `instant_settle` and fire the webhook; if it did not,
do nothing at all (no log, no audit entry). The fx values captured by the
closure are recomputed from the stored request, which never changes. -/
def async_settle (st0 : SysState) (user : String) (now : Nat) (payment_id : Nat)
    (endpoint : Nat → HttpOutcome) : SysState :=
  let p := st0.cbs_adapter.settle_payment payment_id now
  let st := { st0 with cbs_adapter := p.2 }
  match p.1 with
  | none => st
  | some settled =>
      let req := settled.request
      let target_currency := pyOrStr req.target_currency req.currency
      let fx := statusFx req
      let st := log_action st now (some user) "instant_settle"
          (.instant_settle payment_id settled.status settled.settlement_time
            fx.1 fx.2 target_currency)
      (send_webhook st endpoint now payment_id settled.status settled.settlement_time 3).2

/-- The `POST /v1/webhooks/register` endpoint `register_webhook`
(lines 343-348). -/
def register_webhook (st : SysState) (user : String) (now : Nat) (payment_id : Nat)
    (url : String) : SysState :=
  log_action { st with webhooks := webhooksSet st.webhooks payment_id url }
    now (some user) "register_webhook" (.register_webhook payment_id url)

/-- One externally triggered step of the system: the endpoints, with the
settlement request and its background task as separate steps so that every
interleaving of the task with other requests is represented. -/
inductive SysOp where
  | initiate (user : String) (now : Nat) (req : PaymentRequest)
  | batch (user : String) (now : Nat) (reqs : List PaymentRequest)
  | status (user : String) (now : Nat) (payment_id : Nat)
  | settleRequest (user : String) (now : Nat) (payment_id : Nat)
  | settleRun (user : String) (now : Nat) (payment_id : Nat) (endpoint : Nat → HttpOutcome)
  | register (user : String) (now : Nat) (payment_id : Nat) (url : String)

/-- State transition of one step. -/
def SysState.step (st : SysState) : SysOp → SysState
  | .initiate u n r => (initiate_payment st u n r).2
  | .batch u n rs => (batch_payments st u n rs).2
  | .status u n pid => (check_status st u n pid).2
  | .settleRequest u n pid => (instant_settle st u n pid).2
  | .settleRun u n pid endp => async_settle st u n pid endp
  | .register u n pid url => register_webhook st u n pid url

/-- The module's initial state: empty ledger, registry, log and windows,
zeroed metrics (lines 99-113). -/
def sysInit : SysState :=
  { cbs_adapter := { payments := [], nextId := 0 }, webhooks := [], audit_log := [],
    metrics := { total_requests := 0, successful_payments := 0,
                 rate_limit_hits := 0, fraud_blocks := 0 },
    user_requests := [] }

/-- Run a sequence of steps from a state. -/
def runSys (st : SysState) (ops : List SysOp) : SysState := ops.foldl SysState.step st

/-- Run a sequence of `initiate_payment` calls for one user, collecting the
per-call results (used to state the rate-limiter properties). -/
def runInitiates (st : SysState) (user : String) :
    List (Nat × PaymentRequest) → List InitiateResult × SysState
  | [] => ([], st)
  | s :: rest =>
      let p := initiate_payment st user s.1 s.2
      let q := runInitiates p.2 user rest
      (p.1 :: q.1, q.2)

/-- The spec's delivery-success criterion, in its own words (§6): a 2xx
response is success, anything else or a transport error is a retryable
failure. Stated only to compare with what the code does. -/
def spec_delivery_success : HttpOutcome → Bool
  | .response code => 200 ≤ code && code < 300
  | .transportError => false

/-- Invariant of the stored ledger: the settlement time is present exactly
on settled records, and every stored status is "pending" or "settled". -/
def LedgerInv (c : LegacyCBSAdapter) : Prop :=
  ∀ e ∈ c.payments,
    (e.2.settlement_time ≠ none ↔ e.2.status = "settled") ∧
    (e.2.status = "pending" ∨ e.2.status = "settled")

/-! Concrete fixtures used to instantiate the theorems on explicit inputs. -/

/-- An empty adapter. -/
def cbs0 : LegacyCBSAdapter := { payments := [], nextId := 0 }

/-- A plain request: no conversion, benign amount and destination. -/
def reqSimple : PaymentRequest :=
  { from_account := "ACC1", to_account := "ACC2", amount := 100, currency := "USD",
    target_currency := none }

/-- The adapter after creating `reqSimple` (payment id 0, pending). -/
def cbsOne : LegacyCBSAdapter := (cbs0.initiate_payment reqSimple).2

/-- The initial state with a webhook registered for payment id 0. -/
def stHook : SysState := { sysInit with webhooks := [(0, "http://client.example/hook")] }

/-- An endpoint that acknowledges every attempt with 200. -/
def endpointAlwaysOk : Nat → HttpOutcome := fun _ => .response 200

/-- An endpoint that answers every attempt with a 500 error response. -/
def endpointAlways500 : Nat → HttpOutcome := fun _ => .response 500

/-- An endpoint whose every attempt raises a transport error. -/
def endpointAlwaysFail : Nat → HttpOutcome := fun _ => .transportError

/-- An endpoint that raises on the first two attempts and then answers 200. -/
def endpointFailTwice : Nat → HttpOutcome :=
  fun attempt => if attempt < 2 then .transportError else .response 200

/-- A request triggering both fraud rules: amount 10000.01 over the
ceiling, destination on the denylist. -/
def reqFraud : PaymentRequest :=
  { from_account := "ACC1", to_account := "FAKE123", amount := 10000.01, currency := "USD",
    target_currency := none }

/-- A conversion request: 100 USD into EUR. -/
def reqEUR : PaymentRequest :=
  { from_account := "ACC1", to_account := "ACC2", amount := 100, currency := "USD",
    target_currency := some "EUR" }

/-- An unsupported-pair conversion request: 100 USD into JPY. -/
def reqJPY : PaymentRequest :=
  { from_account := "ACC1", to_account := "ACC2", amount := 100, currency := "USD",
    target_currency := some "JPY" }

/-! ### Helper lemmas: association lists -/

theorem lookupUserReqs_append_none {m : List (String × List Nat)} {u : String} (v : List Nat)
    (h : lookupUserReqs m u = none) : lookupUserReqs (m ++ [(u, v)]) u = some v := by
  induction m with
  | nil => simp [lookupUserReqs]
  | cons e rest ih =>
      by_cases he : e.1 = u
      · simp [lookupUserReqs, he] at h
      · simp only [lookupUserReqs, he, if_false, List.cons_append] at h ⊢
        exact ih h

theorem lookupUserReqs_setdefault (m : List (String × List Nat)) (u : String) :
    lookupUserReqs (setdefaultUser m u) u = some ((lookupUserReqs m u).getD []) := by
  unfold setdefaultUser
  cases h : lookupUserReqs m u with
  | none => simp [lookupUserReqs_append_none _ h]
  | some v => simp [h]

theorem lookupUserReqs_set_self (m : List (String × List Nat)) (u : String) (v : List Nat) :
    lookupUserReqs (setUserReqs m u v) u = some v := by
  induction m with
  | nil => simp [setUserReqs, lookupUserReqs]
  | cons e rest ih =>
      by_cases he : e.1 = u
      · simp [setUserReqs, lookupUserReqs, he]
      · simp [setUserReqs, lookupUserReqs, he, ih]

/-! ### Helper lemmas: which state components each operation leaves alone -/

theorem log_action_cbs (st : SysState) (now : Nat) (u : Option String) (a : String)
    (d : Details) : (log_action st now u a d).cbs_adapter = st.cbs_adapter := rfl

theorem log_action_user_requests (st : SysState) (now : Nat) (u : Option String) (a : String)
    (d : Details) : (log_action st now u a d).user_requests = st.user_requests := rfl

theorem log_action_metrics (st : SysState) (now : Nat) (u : Option String) (a : String)
    (d : Details) : (log_action st now u a d).metrics = st.metrics := rfl

theorem log_action_audit (st : SysState) (now : Nat) (u : Option String) (a : String)
    (d : Details) : (log_action st now u a d).audit_log =
      st.audit_log ++ [{ timestamp := now, user := u, action := a, details := d }] := rfl

theorem send_webhook_cbs (st : SysState) (endp : Nat → HttpOutcome) (now payment_id : Nat)
    (status : String) (stime : Option Nat) (m : Nat) :
    (send_webhook st endp now payment_id status stime m).2.cbs_adapter = st.cbs_adapter := by
  unfold send_webhook
  cases webhooksGet st.webhooks payment_id with
  | none => rfl
  | some url =>
      by_cases hu : url = ""
      · simp [hu]
      · by_cases h : (webhookAttempts endp 0 m).2 <;> simp [hu, h]

theorem rateLimitPhase_cbs (st : SysState) (user : String) (now : Nat) :
    (rateLimitPhase st user now).2.2.cbs_adapter = st.cbs_adapter := by
  unfold rateLimitPhase
  by_cases h :
      RATE_LIMIT ≤
        (((lookupUserReqs (setdefaultUser st.user_requests user) user).getD []).filter
          (fun t => now - t < WINDOW)).length <;>
    simp [h, log_action]

theorem check_status_cbs (st : SysState) (user : String) (now payment_id : Nat) :
    (check_status st user now payment_id).2.cbs_adapter = st.cbs_adapter := by
  unfold check_status
  cases st.cbs_adapter.get_status payment_id <;> rfl

theorem instant_settle_cbs (st : SysState) (user : String) (now payment_id : Nat) :
    (instant_settle st user now payment_id).2.cbs_adapter = st.cbs_adapter := by
  unfold instant_settle
  cases st.cbs_adapter.get_status payment_id <;> rfl

theorem register_webhook_cbs (st : SysState) (user : String) (now payment_id : Nat)
    (url : String) : (register_webhook st user now payment_id url).cbs_adapter =
      st.cbs_adapter := rfl

/-! ### Helper lemmas: ledger membership after each mutation -/

theorem mem_initiate_adapter {c : LegacyCBSAdapter} {req : PaymentRequest}
    {e : Nat × PaymentRec} (h : e ∈ (c.initiate_payment req).2.payments) :
    e ∈ c.payments ∨ e.2 = { request := req, status := "pending", settlement_time := none } := by
  unfold LegacyCBSAdapter.initiate_payment at h
  simp only [List.mem_append, List.mem_singleton] at h
  rcases h with h | h
  · exact Or.inl h
  · right; rw [h]

theorem mem_settle_adapter {c : LegacyCBSAdapter} {payment_id now : Nat}
    {e : Nat × PaymentRec} (h : e ∈ (c.settle_payment payment_id now).2.payments) :
    e ∈ c.payments ∨ (e.2.status = "settled" ∧ e.2.settlement_time = some now) := by
  unfold LegacyCBSAdapter.settle_payment at h
  cases hg : c.get_status payment_id with
  | none => rw [hg] at h; exact Or.inl h
  | some payment =>
      rw [hg] at h
      simp only [List.mem_map] at h
      obtain ⟨x, hx, hxe⟩ := h
      by_cases hid : x.1 = payment_id
      · right
        rw [if_pos hid] at hxe
        rw [← hxe]
        exact ⟨rfl, rfl⟩
      · left
        rw [if_neg hid] at hxe
        rw [← hxe]; exact hx

/-! ### The ledger after each endpoint -/

theorem initiate_payment_rl_reject {st0 : SysState} {user : String} {now : Nat}
    (req : PaymentRequest) (h : (rateLimitPhase st0 user now).1 = false) :
    initiate_payment st0 user now req = (.rateLimited, (rateLimitPhase st0 user now).2.2) := by
  simp [initiate_payment, h]

theorem initiate_payment_fraud {st0 : SysState} {user : String} {now : Nat}
    {req : PaymentRequest} (h : (rateLimitPhase st0 user now).1 = true)
    (hf : fraud_flags req ≠ []) :
    initiate_payment st0 user now req =
      (.fraudDetected (fraud_flags req),
        log_action
          { (rateLimitPhase st0 user now).2.2 with metrics :=
              { (rateLimitPhase st0 user now).2.2.metrics with fraud_blocks :=
                  (rateLimitPhase st0 user now).2.2.metrics.fraud_blocks + 1 } }
          now (some user) "fraud_detected" (.fraud_detected (fraud_flags req) req)) := by
  simp [initiate_payment, h, hf]

theorem initiate_payment_fxfail {st0 : SysState} {user : String} {now : Nat}
    {req : PaymentRequest} (h : (rateLimitPhase st0 user now).1 = true)
    (hf : fraud_flags req = []) (hx : fxStep req = none) :
    initiate_payment st0 user now req =
      (.fxUnavailable,
        log_action (rateLimitPhase st0 user now).2.2 now (some user)
          "initiate_payment_failed" (.initiate_payment_failed "FX rate not found" req)) := by
  simp [initiate_payment, h, hf, hx]

theorem initiate_payment_ok {st0 : SysState} {user : String} {now : Nat}
    {req : PaymentRequest} {fx : Option ℚ × ℚ} (h : (rateLimitPhase st0 user now).1 = true)
    (hf : fraud_flags req = []) (hx : fxStep req = some fx) :
    initiate_payment st0 user now req =
      (.ok { payment_id := (rateLimitPhase st0 user now).2.2.cbs_adapter.nextId,
             status := "pending", settlement_time := none,
             amount := some req.amount, currency := some req.currency,
             fx_rate := fx.1, converted_amount := some fx.2,
             target_currency := some (pyOrStr req.target_currency req.currency) },
        log_action
          { (rateLimitPhase st0 user now).2.2 with
            cbs_adapter :=
              ((rateLimitPhase st0 user now).2.2.cbs_adapter.initiate_payment req).2
            metrics :=
              { (rateLimitPhase st0 user now).2.2.metrics with successful_payments :=
                  (rateLimitPhase st0 user now).2.2.metrics.successful_payments + 1 } }
          now (some user) "initiate_payment"
          (.initiate_payment (rateLimitPhase st0 user now).2.2.cbs_adapter.nextId req
            fx.1 (some fx.2) (pyOrStr req.target_currency req.currency))) := by
  simp [initiate_payment, h, hf, hx, LegacyCBSAdapter.initiate_payment]

theorem initiate_payment_cbs (st : SysState) (user : String) (now : Nat)
    (req : PaymentRequest) :
    (initiate_payment st user now req).2.cbs_adapter = st.cbs_adapter ∨
      ((initiate_payment st user now req).2.cbs_adapter =
          (st.cbs_adapter.initiate_payment req).2 ∧ fraud_flags req = []) := by
  cases hb : (rateLimitPhase st user now).1 with
  | false =>
      rw [initiate_payment_rl_reject req hb]
      exact Or.inl (rateLimitPhase_cbs st user now)
  | true =>
      by_cases hf : fraud_flags req = []
      · cases hfx : fxStep req with
        | none =>
            rw [initiate_payment_fxfail hb hf hfx, log_action_cbs]
            exact Or.inl (rateLimitPhase_cbs st user now)
        | some fx =>
            rw [initiate_payment_ok hb hf hfx]
            right
            refine ⟨?_, hf⟩
            rw [log_action_cbs]
            show ((rateLimitPhase st user now).2.2.cbs_adapter.initiate_payment req).2 =
              (st.cbs_adapter.initiate_payment req).2
            rw [rateLimitPhase_cbs]
      · rw [initiate_payment_fraud hb hf, log_action_cbs]
        exact Or.inl (rateLimitPhase_cbs st user now)

theorem batchItem_cbs (st : SysState) (user : String) (now : Nat) (req : PaymentRequest) :
    (batchItem st user now req).2.cbs_adapter = st.cbs_adapter ∨
      (batchItem st user now req).2.cbs_adapter = (st.cbs_adapter.initiate_payment req).2 := by
  unfold batchItem
  cases hfx : fxStep req with
  | none => exact Or.inl rfl
  | some pr => right; simp only [log_action]

theorem batchLoop_cons_state (st : SysState) (user : String) (now : Nat)
    (req : PaymentRequest) (rest : List PaymentRequest) :
    (batchLoop st user now (req :: rest)).2 =
      (batchLoop (batchItem st user now req).2 user now rest).2 := by
  simp only [batchLoop]
  split <;> rfl

/-! ### The reachable-state invariant of the ledger -/

theorem ledgerInv_initiate {c : LegacyCBSAdapter} (req : PaymentRequest)
    (h : LedgerInv c) : LedgerInv (c.initiate_payment req).2 := by
  intro e he
  rcases mem_initiate_adapter he with he | he
  · exact h e he
  · rw [he]
    exact ⟨by simp, Or.inl rfl⟩

theorem ledgerInv_settle {c : LegacyCBSAdapter} (payment_id now : Nat)
    (h : LedgerInv c) : LedgerInv (c.settle_payment payment_id now).2 := by
  intro e he
  rcases mem_settle_adapter he with he | ⟨hs, ht⟩
  · exact h e he
  · exact ⟨by rw [hs, ht]; simp, Or.inr hs⟩

theorem ledgerInv_initiate_endpoint {st : SysState} (user : String) (now : Nat)
    (req : PaymentRequest) (h : LedgerInv st.cbs_adapter) :
    LedgerInv (initiate_payment st user now req).2.cbs_adapter := by
  rcases initiate_payment_cbs st user now req with hc | ⟨hc, _⟩
  · rw [hc]; exact h
  · rw [hc]; exact ledgerInv_initiate req h

theorem ledgerInv_batchItem {st : SysState} (user : String) (now : Nat)
    (req : PaymentRequest) (h : LedgerInv st.cbs_adapter) :
    LedgerInv (batchItem st user now req).2.cbs_adapter := by
  rcases batchItem_cbs st user now req with hc | hc
  · rw [hc]; exact h
  · rw [hc]; exact ledgerInv_initiate req h

theorem ledgerInv_batchLoop (user : String) (now : Nat) :
    ∀ (reqs : List PaymentRequest) (st : SysState), LedgerInv st.cbs_adapter →
      LedgerInv (batchLoop st user now reqs).2.cbs_adapter := by
  intro reqs
  induction reqs with
  | nil => intro st h; exact h
  | cons req rest ih =>
      intro st h
      rw [batchLoop_cons_state]
      exact ih _ (ledgerInv_batchItem user now req h)

theorem ledgerInv_async_settle {st : SysState} (user : String) (now payment_id : Nat)
    (endp : Nat → HttpOutcome) (h : LedgerInv st.cbs_adapter) :
    LedgerInv (async_settle st user now payment_id endp).cbs_adapter := by
  unfold async_settle
  cases hs : (st.cbs_adapter.settle_payment payment_id now).1 with
  | none =>
      simp only [hs]
      exact ledgerInv_settle payment_id now h
  | some settled =>
      simp only [hs, send_webhook_cbs, log_action_cbs]
      exact ledgerInv_settle payment_id now h

theorem ledgerInv_step {st : SysState} (op : SysOp) (h : LedgerInv st.cbs_adapter) :
    LedgerInv (st.step op).cbs_adapter := by
  cases op with
  | initiate u n r => exact ledgerInv_initiate_endpoint u n r h
  | batch u n rs =>
      show LedgerInv (batch_payments st u n rs).2.cbs_adapter
      unfold batch_payments
      exact ledgerInv_batchLoop u n rs st h
  | status u n pid =>
      show LedgerInv (check_status st u n pid).2.cbs_adapter
      rw [check_status_cbs]
      exact h
  | settleRequest u n pid =>
      show LedgerInv (instant_settle st u n pid).2.cbs_adapter
      rw [instant_settle_cbs]
      exact h
  | settleRun u n pid endp => exact ledgerInv_async_settle u n pid endp h
  | register u n pid url =>
      show LedgerInv (register_webhook st u n pid url).cbs_adapter
      rw [register_webhook_cbs]
      exact h

theorem ledgerInv_runSys : ∀ (ops : List SysOp) (st : SysState), LedgerInv st.cbs_adapter →
    LedgerInv (runSys st ops).cbs_adapter := by
  intro ops
  induction ops with
  | nil => intro st h; exact h
  | cons op rest ih =>
      intro st h
      show LedgerInv (runSys (st.step op) rest).cbs_adapter
      exact ih _ (ledgerInv_step op h)

theorem ledgerInv_init : LedgerInv sysInit.cbs_adapter := by
  intro e he
  simp [sysInit] at he

/-! ### Reading a status back -/

theorem assocFind_mem : ∀ (l : List (Nat × PaymentRec)) (payment_id : Nat) (p : PaymentRec),
    assocFind l payment_id = some p → (payment_id, p) ∈ l := by
  intro l
  induction l with
  | nil => intro pid p h; simp [assocFind] at h
  | cons e rest ih =>
      intro pid p h
      unfold assocFind at h
      by_cases he : e.1 = pid
      · rw [if_pos he] at h
        injection h with h
        exact List.mem_cons.mpr (Or.inl (by rw [← he, ← h]))
      · rw [if_neg he] at h
        exact List.mem_cons_of_mem _ (ih pid p h)

theorem check_status_some {st : SysState} {user : String} {now payment_id : Nat}
    {ps : PaymentStatus} (h : (check_status st user now payment_id).1 = some ps) :
    ∃ p, st.cbs_adapter.get_status payment_id = some p ∧ ps.status = p.status := by
  unfold check_status at h
  cases hg : st.cbs_adapter.get_status payment_id with
  | none => rw [hg] at h; simp at h
  | some p =>
      rw [hg] at h
      simp only [Option.some.injEq] at h
      exact ⟨p, rfl, by rw [← h]⟩

/-- C2: every payment record reachable through any sequence of
create / settle / read operations has its settlement time present if and
only if its stored status is "settled". -/
theorem c2_settlement_time_iff_settled (ops : List SysOp) :
    ∀ e ∈ (runSys sysInit ops).cbs_adapter.payments,
      e.2.settlement_time ≠ none ↔ e.2.status = "settled" := by
  intro e he
  exact ((ledgerInv_runSys ops sysInit ledgerInv_init) e he).1

/-- Witness for C2: after creating a payment and running its settlement
task, the stored record is settled with a present settlement time, and the
invariant instance holds for it. -/
theorem c2_settlement_time_iff_settled_witness :
    (0, ({ request := reqSimple, status := "settled", settlement_time := some 1 } :
        PaymentRec)) ∈
      (runSys sysInit
        [.initiate "u" 0 reqSimple, .settleRun "u" 1 0 endpointAlwaysOk]).cbs_adapter.payments ∧
    ((some 1 : Option Nat) ≠ none ↔ "settled" = "settled") :=
  ⟨by decide,
    c2_settlement_time_iff_settled
      [.initiate "u" 0 reqSimple, .settleRun "u" 1 0 endpointAlwaysOk]
      (0, { request := reqSimple, status := "settled", settlement_time := some 1 })
      (by decide)⟩

/-- C10: in every reachable state, every stored status is "pending" or
"settled" — "settling" is never stored — and a status read never returns
"settling", including between a settlement request and the run of its
background task. -/
theorem c10_settling_never_stored (ops : List SysOp) :
    (∀ e ∈ (runSys sysInit ops).cbs_adapter.payments,
        e.2.status = "pending" ∨ e.2.status = "settled") ∧
      (∀ (user : String) (now payment_id : Nat) (ps : PaymentStatus),
        (check_status (runSys sysInit ops) user now payment_id).1 = some ps →
          ps.status ≠ "settling") := by
  have hinv := ledgerInv_runSys ops sysInit ledgerInv_init
  constructor
  · intro e he
    exact (hinv e he).2
  · intro user now pid ps h
    obtain ⟨p, hg, hs⟩ := check_status_some h
    have hmem := assocFind_mem _ _ _ hg
    have hp := (hinv (pid, p) hmem).2
    rw [hs]
    rcases hp with h1 | h1 <;> rw [h1] <;> decide

/-- Witness for C10: between the settlement request and the background
task, the stored record is still "pending" and a status read reports
"pending", not "settling". -/
theorem c10_settling_never_stored_witness :
    ((0, ({ request := reqSimple, status := "pending", settlement_time := none } :
        PaymentRec)) ∈
      (runSys sysInit
        [.initiate "u" 0 reqSimple, .settleRequest "u" 1 0]).cbs_adapter.payments ∧
      ("pending" = "pending" ∨ "pending" = "settled")) ∧
    ((check_status (runSys sysInit [.initiate "u" 0 reqSimple, .settleRequest "u" 1 0])
        "u" 2 0).1 =
      some { payment_id := 0, status := "pending", settlement_time := none,
             amount := some 100, currency := some "USD", fx_rate := none,
             converted_amount := some 100, target_currency := some "USD" } ∧
      ({ payment_id := 0, status := "pending", settlement_time := none,
         amount := some 100, currency := some "USD", fx_rate := none,
         converted_amount := some 100, target_currency := some "USD" } :
        PaymentStatus).status ≠ "settling") :=
  ⟨⟨by decide,
    (c10_settling_never_stored [.initiate "u" 0 reqSimple, .settleRequest "u" 1 0]).1
      (0, { request := reqSimple, status := "pending", settlement_time := none })
      (by decide)⟩,
   by decide,
    (c10_settling_never_stored [.initiate "u" 0 reqSimple, .settleRequest "u" 1 0]).2
      "u" 2 0 _ (by decide)⟩

/-- C1 counterexample: settling payment 0 at time 5 stamps settlement time
5, but invoking `settle_payment` again at time 9 returns the record
re-stamped to 9 — not the existing record unchanged, and not the same
settlement time as the first call. -/
theorem c1_counterexample :
    ((cbsOne.settle_payment 0 5).1.map PaymentRec.settlement_time = some (some 5)) ∧
    (((cbsOne.settle_payment 0 5).2.settle_payment 0 9).1.map PaymentRec.settlement_time =
      some (some 9)) ∧
    ((cbsOne.settle_payment 0 5).2.settle_payment 0 9).1 ≠ (cbsOne.settle_payment 0 5).1 := by
  decide

/-- C1 (amended): invoking `settle_payment` on an already-settled payment
returns the record with status still "settled" but with the settlement
time re-stamped to the clock of this invocation; the result equals the
existing record only when the two invocations carry the same clock. -/
theorem c1_settle_restamps (c : LegacyCBSAdapter) (payment_id now : Nat) (p : PaymentRec)
    (hget : c.get_status payment_id = some p) (hsettled : p.status = "settled") :
    (c.settle_payment payment_id now).1 =
      some { p with status := "settled", settlement_time := some now } := by
  unfold LegacyCBSAdapter.settle_payment
  rw [hget]

/-- Witness for C1 (amended): the second settlement call at clock 9 on the
payment settled at clock 5 returns the record re-stamped to 9. -/
theorem c1_settle_restamps_witness :
    ((cbsOne.settle_payment 0 5).2.get_status 0 =
        some { request := reqSimple, status := "settled", settlement_time := some 5 }) ∧
    (((cbsOne.settle_payment 0 5).2.settle_payment 0 9).1 =
        some { request := reqSimple, status := "settled", settlement_time := some 9 }) :=
  ⟨by decide,
    c1_settle_restamps (cbsOne.settle_payment 0 5).2 0 9
      { request := reqSimple, status := "settled", settlement_time := some 5 }
      (by decide) rfl⟩

/-- C6 counterexample: when the settlement task runs for a payment id that
is not in the ledger, the state is completely unchanged — in particular
nothing is logged: the audit log stays empty, so the event IS dropped
without any audit entry, contrary to the claim that the task logs the
condition. -/
theorem c6_counterexample :
    async_settle sysInit "demo" 3 0 endpointAlwaysOk = sysInit ∧
    (async_settle sysInit "demo" 3 0 endpointAlwaysOk).audit_log = [] := by
  decide

/-- C6 (amended): if the payment does not exist when the background
settlement task runs, the task discards the work silently with NO log and
no audit entry: the whole state is returned unchanged, and no error is
surfaced to any caller. -/
theorem c6_missing_payment_noop (st : SysState) (user : String) (now payment_id : Nat)
    (endp : Nat → HttpOutcome) (h : st.cbs_adapter.get_status payment_id = none) :
    async_settle st user now payment_id endp = st := by
  unfold async_settle LegacyCBSAdapter.settle_payment
  rw [h]

/-- Witness for C6 (amended): running the settlement task for the unknown
payment id 5 from the initial state leaves the state untouched. -/
theorem c6_missing_payment_noop_witness :
    (sysInit.cbs_adapter.get_status 5 = none) ∧
      async_settle sysInit "demo" 7 5 endpointAlwaysFail = sysInit :=
  ⟨by decide, c6_missing_payment_noop sysInit "demo" 7 5 endpointAlwaysFail (by decide)⟩

/-! ### Guardrails and payment creation (C3) -/

theorem fraud_flags_nil {req : PaymentRequest} (h : fraud_flags req = []) :
    req.amount ≤ FRAUD_AMOUNT ∧ req.to_account ∉ SUSPICIOUS_ACCOUNTS := by
  by_cases h1 : FRAUD_AMOUNT < req.amount
  · exfalso; simp [fraud_flags, h1] at h
  · by_cases h2 : req.to_account ∈ SUSPICIOUS_ACCOUNTS
    · exfalso; simp [fraud_flags, h1, h2] at h
    · exact ⟨le_of_not_lt h1, h2⟩

/-- C3 counterexample: the batch endpoint performs neither a rate-limit
check nor a fraud screen, so a single batch request with amount 20000 to
the denylisted account "FAKE123" creates a payment record — a payment with
amount exceeding 10000 AND a denylisted destination is created. -/
theorem c3_counterexample :
    ((batch_payments sysInit "demo" 0
        [{ from_account := "ACC1", to_account := "FAKE123", amount := 20000,
           currency := "USD", target_currency := none }]).2.cbs_adapter.payments.map
        (fun e => (e.2.request.amount, e.2.request.to_account)) =
      [(20000, "FAKE123")]) ∧
    FRAUD_AMOUNT < 20000 ∧ "FAKE123" ∈ SUSPICIOUS_ACCOUNTS ∧
    (batch_payments sysInit "demo" 0
        [{ from_account := "ACC1", to_account := "FAKE123", amount := 20000,
           currency := "USD", target_currency := none }]).1.success = 1 := by
  decide

/-- C3 (amended): on the SINGLE-payment path the guardrails do precede
creation — every record present after `initiate_payment` either was
already stored or passed the fraud screen (amount within the ceiling and
destination not denylisted, the record being created only on the
accepting branch after the rate-limit check); the batch path, however,
performs neither check, so such payments can be created via batch. -/
theorem c3_single_path_guarded (st : SysState) (user : String) (now : Nat)
    (req : PaymentRequest) :
    ∀ e ∈ (initiate_payment st user now req).2.cbs_adapter.payments,
      e ∈ st.cbs_adapter.payments ∨
        (e.2.request = req ∧ req.amount ≤ FRAUD_AMOUNT ∧
          req.to_account ∉ SUSPICIOUS_ACCOUNTS) := by
  intro e he
  rcases initiate_payment_cbs st user now req with hc | ⟨hc, hf⟩
  · rw [hc] at he
    exact Or.inl he
  · rw [hc] at he
    rcases mem_initiate_adapter he with he | he
    · exact Or.inl he
    · right
      have hff := fraud_flags_nil hf
      exact ⟨by rw [he], hff.1, hff.2⟩

/-- Witness for C3 (amended): submitting a benign request on the single
path from the initial state leaves exactly one record, which is the
benign request itself. -/
theorem c3_single_path_guarded_witness :
    ((0, ({ request := reqSimple, status := "pending", settlement_time := none } :
        PaymentRec)) ∈
      (initiate_payment sysInit "u" 0 reqSimple).2.cbs_adapter.payments) ∧
    ((0, ({ request := reqSimple, status := "pending", settlement_time := none } :
        PaymentRec)) ∈ sysInit.cbs_adapter.payments ∨
      (reqSimple = reqSimple ∧ reqSimple.amount ≤ FRAUD_AMOUNT ∧
        reqSimple.to_account ∉ SUSPICIOUS_ACCOUNTS)) :=
  ⟨by decide,
    c3_single_path_guarded sysInit "u" 0 reqSimple
      (0, { request := reqSimple, status := "pending", settlement_time := none })
      (by decide)⟩

/-! ### Webhook delivery (C4, C5) -/

theorem webhookAttempts_ok : ∀ (r a : Nat) (endp : Nat → HttpOutcome),
    (webhookAttempts endp a r).2 = true ↔
      ∃ i, i < r ∧ (endp (a + i)).isResponse = true := by
  intro r
  induction r with
  | zero => intro a endp; simp [webhookAttempts]
  | succ n ih =>
      intro a endp
      unfold webhookAttempts
      cases he : endp a with
      | response c =>
          simp only
          constructor
          · intro _
            exact ⟨0, Nat.succ_pos n, by rw [Nat.add_zero, he]; rfl⟩
          · intro _
            trivial
      | transportError =>
          simp only
          rw [ih (a + 1) endp]
          constructor
          · rintro ⟨i, hi, hr⟩
            refine ⟨i + 1, by omega, ?_⟩
            rw [show a + (i + 1) = a + 1 + i by omega]
            exact hr
          · rintro ⟨i, hi, hr⟩
            cases i with
            | zero =>
                rw [Nat.add_zero, he] at hr
                simp [HttpOutcome.isResponse] at hr
            | succ j =>
                refine ⟨j, by omega, ?_⟩
                rw [show a + 1 + j = a + (j + 1) by omega]
                exact hr

/-- C4 counterexample: with a registered subscription and an endpoint that
answers 500 to everything, the very first attempt is counted as success —
the call returns True after exactly one attempt with outcome 500, no retry
happens and the state is untouched — although the spec's own success
criterion classifies a 500 response as a retryable failure. -/
theorem c4_counterexample :
    ((send_webhook stHook endpointAlways500 7 0 "settled" (some 5) 3).1 =
        (true, [.response 500])) ∧
    (send_webhook stHook endpointAlways500 7 0 "settled" (some 5) 3).2 = stHook ∧
    spec_delivery_success (.response 500) = false := by
  decide

/-- C4 (amended): a delivery attempt counts as success exactly when the
POST completes without a transport error — ANY HTTP response, 2xx or not,
terminates the loop as a success; only a transport error is treated as a
retryable failure. For a registered truthy (non-empty) URL the delivery
returns True iff one of the up to 3 attempts yields an HTTP response of
any code. -/
theorem c4_success_iff_any_response (st : SysState) (endp : Nat → HttpOutcome)
    (now payment_id : Nat) (status : String) (stime : Option Nat) (url : String)
    (h : webhooksGet st.webhooks payment_id = some url) (hurl : url ≠ "") :
    ((send_webhook st endp now payment_id status stime 3).1.1 = true ↔
      ∃ i, i < 3 ∧ (endp i).isResponse = true) := by
  have hiff := webhookAttempts_ok 3 0 endp
  simp only [Nat.zero_add] at hiff
  unfold send_webhook
  rw [h]
  simp only [if_neg hurl]
  by_cases hp : (webhookAttempts endp 0 3).2
  · simp only [hp, if_true]
    exact ⟨fun _ => hiff.mp hp, fun _ => trivial⟩
  · simp only [hp, if_false, Bool.false_eq_true]
    constructor
    · intro hh
      exact absurd hh (by simp)
    · intro hh
      exact absurd (hiff.mpr hh) hp

/-- Witness for C4 (amended): the all-500 endpoint with the registered
subscription — success holds because attempt 0 yields an HTTP response. -/
theorem c4_success_iff_any_response_witness :
    (webhooksGet stHook.webhooks 0 = some "http://client.example/hook" ∧
      "http://client.example/hook" ≠ "") ∧
    ((send_webhook stHook endpointAlways500 7 0 "settled" (some 5) 3).1.1 = true ↔
      ∃ i, i < 3 ∧ (endpointAlways500 i).isResponse = true) :=
  ⟨⟨by decide, by decide⟩,
    c4_success_iff_any_response stHook endpointAlways500 7 0 "settled" (some 5)
      "http://client.example/hook" (by decide) (by decide)⟩

/-- C5: bounded retries terminating on first success. (i) With a
registered subscription, an endpoint failing twice then succeeding yields
a successful delivery whose attempts contain exactly one completed POST
(the one the subscriber received), and the state - in particular the audit
log - is unchanged: no `webhook_failed` entry. (ii) An endpoint that
always raises yields failure after exactly 3 attempts and appends exactly
one `webhook_failed` audit entry with absent principal carrying the
payment id, the destination URL and the reported status. (iii) With no
registered subscription the event is dropped with no attempts, no error
and no state change. Parts (i) and (ii) are scoped to truthy (non-empty)
registered URLs: under the code's `if url:` a registered empty string is
falsy and skips delivery like an absent subscription. -/
theorem c5_webhook_retry_behavior :
    (∀ (st : SysState) (now payment_id : Nat) (status : String) (stime : Option Nat)
        (url : String), webhooksGet st.webhooks payment_id = some url → url ≠ "" →
      (send_webhook st endpointFailTwice now payment_id status stime 3).1.1 = true ∧
      (send_webhook st endpointFailTwice now payment_id status stime 3).1.2 =
        [.transportError, .transportError, .response 200] ∧
      ((send_webhook st endpointFailTwice now payment_id status stime 3).1.2.countP
        HttpOutcome.isResponse) = 1 ∧
      (send_webhook st endpointFailTwice now payment_id status stime 3).2 = st) ∧
    (∀ (st : SysState) (now payment_id : Nat) (status : String) (stime : Option Nat)
        (url : String), webhooksGet st.webhooks payment_id = some url → url ≠ "" →
      (send_webhook st endpointAlwaysFail now payment_id status stime 3).1.1 = false ∧
      (send_webhook st endpointAlwaysFail now payment_id status stime 3).1.2.length = 3 ∧
      (send_webhook st endpointAlwaysFail now payment_id status stime 3).2.audit_log =
        st.audit_log ++ [{ timestamp := now, user := none, action := "webhook_failed",
                           details := .webhook_failed payment_id url status }]) ∧
    (∀ (st : SysState) (endp : Nat → HttpOutcome) (now payment_id : Nat) (status : String)
        (stime : Option Nat), webhooksGet st.webhooks payment_id = none →
      send_webhook st endp now payment_id status stime 3 = ((false, []), st)) := by
  refine ⟨?_, ?_, ?_⟩
  · intro st now payment_id status stime url h hurl
    unfold send_webhook
    rw [h]
    simp only [if_neg hurl]
    have ha : webhookAttempts endpointFailTwice 0 3 =
        ([.transportError, .transportError, .response 200], true) := rfl
    rw [ha]
    exact ⟨rfl, rfl, rfl, rfl⟩
  · intro st now payment_id status stime url h hurl
    unfold send_webhook
    rw [h]
    simp only [if_neg hurl]
    have ha : webhookAttempts endpointAlwaysFail 0 3 =
        ([.transportError, .transportError, .transportError], false) := rfl
    rw [ha]
    exact ⟨rfl, rfl, rfl⟩
  · intro st endp now payment_id status stime h
    unfold send_webhook
    rw [h]

/-- Witness for C5: the three scenarios instantiated - the registered
subscription of `stHook` against the fail-twice and the always-failing
endpoints, and the empty registry of the initial state. -/
theorem c5_webhook_retry_behavior_witness :
    (webhooksGet stHook.webhooks 0 = some "http://client.example/hook" ∧
      "http://client.example/hook" ≠ "") ∧
    ((send_webhook stHook endpointFailTwice 7 0 "settled" (some 5) 3).1.1 = true ∧
      (send_webhook stHook endpointFailTwice 7 0 "settled" (some 5) 3).1.2 =
        [.transportError, .transportError, .response 200] ∧
      ((send_webhook stHook endpointFailTwice 7 0 "settled" (some 5) 3).1.2.countP
        HttpOutcome.isResponse) = 1 ∧
      (send_webhook stHook endpointFailTwice 7 0 "settled" (some 5) 3).2 = stHook) ∧
    ((send_webhook stHook endpointAlwaysFail 7 0 "settled" (some 5) 3).1.1 = false ∧
      (send_webhook stHook endpointAlwaysFail 7 0 "settled" (some 5) 3).1.2.length = 3 ∧
      (send_webhook stHook endpointAlwaysFail 7 0 "settled" (some 5) 3).2.audit_log =
        stHook.audit_log ++
          [{ timestamp := 7
             user := none
             action := "webhook_failed"
             details := .webhook_failed 0 "http://client.example/hook" "settled" }]) ∧
    (webhooksGet sysInit.webhooks 0 = none) ∧
    (send_webhook sysInit endpointAlwaysOk 7 0 "settled" (some 5) 3 = ((false, []), sysInit)) :=
  ⟨⟨by decide, by decide⟩,
    c5_webhook_retry_behavior.1 stHook 7 0 "settled" (some 5) "http://client.example/hook"
      (by decide) (by decide),
    c5_webhook_retry_behavior.2.1 stHook 7 0 "settled" (some 5) "http://client.example/hook"
      (by decide) (by decide),
    by decide,
    c5_webhook_retry_behavior.2.2 sysInit endpointAlwaysOk 7 0 "settled" (some 5)
      (by decide)⟩

/-! ### The rate limiter (C7) -/

theorem filter_window_all {l : List Nat} {a now : Nat} (hl : ∀ t ∈ l, a ≤ t)
    (hn : now < a + WINDOW) : l.filter (fun t => now - t < WINDOW) = l := by
  apply List.filter_eq_self.mpr
  intro t ht
  have ha := hl t ht
  have hw : WINDOW = 60 := rfl
  simp only [decide_eq_true_eq]
  omega

theorem filter_window_none {l : List Nat} {now : Nat} (hl : ∀ t ∈ l, t + WINDOW ≤ now) :
    l.filter (fun t => now - t < WINDOW) = [] := by
  rw [List.filter_eq_nil_iff]
  intro t ht
  have ha := hl t ht
  have hw : WINDOW = 60 := rfl
  simp only [decide_eq_true_eq]
  omega

theorem rateLimitPhase_true (st : SysState) (user : String) (now : Nat)
    (h : ((((lookupUserReqs st.user_requests user).getD []).filter
        (fun t => now - t < WINDOW)).length) < RATE_LIMIT) :
    (rateLimitPhase st user now).1 = true ∧
    lookupUserReqs (rateLimitPhase st user now).2.2.user_requests user =
      some ((((lookupUserReqs st.user_requests user).getD []).filter
        (fun t => now - t < WINDOW)) ++ [now]) ∧
    (rateLimitPhase st user now).2.2.metrics =
      { st.metrics with total_requests := st.metrics.total_requests + 1 } ∧
    (rateLimitPhase st user now).2.2.audit_log = st.audit_log := by
  have hsd := lookupUserReqs_setdefault st.user_requests user
  simp only [rateLimitPhase, hsd, Option.getD_some, not_le.mpr h, if_false,
    lookupUserReqs_set_self]
  exact ⟨trivial, trivial, trivial, trivial⟩

theorem rateLimitPhase_false (st : SysState) (user : String) (now : Nat)
    (h : RATE_LIMIT ≤ ((((lookupUserReqs st.user_requests user).getD []).filter
        (fun t => now - t < WINDOW)).length)) :
    (rateLimitPhase st user now).1 = false ∧
    (rateLimitPhase st user now).2.2.metrics.rate_limit_hits =
      st.metrics.rate_limit_hits + 1 := by
  have hsd := lookupUserReqs_setdefault st.user_requests user
  simp only [rateLimitPhase, hsd, Option.getD_some, h, if_true, log_action]
  exact ⟨trivial, trivial⟩

theorem initiate_accept (st : SysState) (user : String) (now : Nat) (req : PaymentRequest)
    (h : ((((lookupUserReqs st.user_requests user).getD []).filter
        (fun t => now - t < WINDOW)).length) < RATE_LIMIT) :
    (initiate_payment st user now req).1 ≠ .rateLimited ∧
    lookupUserReqs (initiate_payment st user now req).2.user_requests user =
      some ((((lookupUserReqs st.user_requests user).getD []).filter
        (fun t => now - t < WINDOW)) ++ [now]) ∧
    (initiate_payment st user now req).2.metrics.rate_limit_hits =
      st.metrics.rate_limit_hits := by
  obtain ⟨hb, hlook, hmet, _⟩ := rateLimitPhase_true st user now h
  by_cases hf : fraud_flags req = []
  · cases hfx : fxStep req with
    | none =>
        rw [initiate_payment_fxfail hb hf hfx]
        exact ⟨by simp, by simp [log_action, hlook], by simp [log_action, hmet]⟩
    | some fx =>
        rw [initiate_payment_ok hb hf hfx]
        exact ⟨by simp, by simp [log_action, hlook], by simp [log_action, hmet]⟩
  · rw [initiate_payment_fraud hb hf]
    exact ⟨by simp, by simp [log_action, hlook], by simp [log_action, hmet]⟩

theorem initiate_reject (st : SysState) (user : String) (now : Nat) (req : PaymentRequest)
    (h : RATE_LIMIT ≤ ((((lookupUserReqs st.user_requests user).getD []).filter
        (fun t => now - t < WINDOW)).length)) :
    (initiate_payment st user now req).1 = .rateLimited ∧
    (initiate_payment st user now req).2.metrics.rate_limit_hits =
      st.metrics.rate_limit_hits + 1 := by
  obtain ⟨hb, hhits⟩ := rateLimitPhase_false st user now h
  rw [initiate_payment_rl_reject req hb]
  exact ⟨rfl, hhits⟩

theorem runInitiates_cons (st : SysState) (user : String) (s : Nat × PaymentRequest)
    (rest : List (Nat × PaymentRequest)) :
    runInitiates st user (s :: rest) =
      ((initiate_payment st user s.1 s.2).1 ::
          (runInitiates (initiate_payment st user s.1 s.2).2 user rest).1,
        (runInitiates (initiate_payment st user s.1 s.2).2 user rest).2) := rfl

theorem runInitiates_append (st : SysState) (user : String)
    (xs ys : List (Nat × PaymentRequest)) :
    runInitiates st user (xs ++ ys) =
      ((runInitiates st user xs).1 ++
          (runInitiates (runInitiates st user xs).2 user ys).1,
        (runInitiates (runInitiates st user xs).2 user ys).2) := by
  induction xs generalizing st with
  | nil => simp [runInitiates]
  | cons s rest ih =>
      rw [List.cons_append, runInitiates_cons, runInitiates_cons, ih]
      rfl

theorem runInitiates_accepts (user : String) (a : Nat) :
    ∀ (subs : List (Nat × PaymentRequest)) (st : SysState),
      (∀ p ∈ subs, a ≤ p.1 ∧ p.1 < a + WINDOW) →
      (∀ t ∈ (lookupUserReqs st.user_requests user).getD [], a ≤ t) →
      ((lookupUserReqs st.user_requests user).getD []).length + subs.length ≤ RATE_LIMIT →
      (∀ r ∈ (runInitiates st user subs).1, r ≠ .rateLimited) ∧
      (lookupUserReqs (runInitiates st user subs).2.user_requests user).getD [] =
        (lookupUserReqs st.user_requests user).getD [] ++ subs.map (·.1) ∧
      (runInitiates st user subs).2.metrics.rate_limit_hits =
        st.metrics.rate_limit_hits := by
  intro subs
  induction subs with
  | nil =>
      intro st _ _ _
      exact ⟨by intro r hr; simp [runInitiates] at hr, by simp [runInitiates], rfl⟩
  | cons s rest ih =>
      intro st hsubs hold hlen
      have hs := hsubs s (List.mem_cons_self s rest)
      have hfilter : ((lookupUserReqs st.user_requests user).getD []).filter
          (fun t => s.1 - t < WINDOW) = (lookupUserReqs st.user_requests user).getD [] :=
        filter_window_all hold hs.2
      have hflen : (((lookupUserReqs st.user_requests user).getD []).filter
          (fun t => s.1 - t < WINDOW)).length < RATE_LIMIT := by
        rw [hfilter]
        have := hlen
        simp only [List.length_cons] at this
        omega
      obtain ⟨h1, h2, h3⟩ := initiate_accept st user s.1 s.2 hflen
      rw [hfilter] at h2
      have hold' : ∀ t ∈ (lookupUserReqs
          (initiate_payment st user s.1 s.2).2.user_requests user).getD [], a ≤ t := by
        rw [h2]
        intro t ht
        simp only [Option.getD_some, List.mem_append, List.mem_singleton] at ht
        rcases ht with ht | ht
        · exact hold t ht
        · rw [ht]; exact hs.1
      have hlen' : ((lookupUserReqs
          (initiate_payment st user s.1 s.2).2.user_requests user).getD []).length +
          rest.length ≤ RATE_LIMIT := by
        rw [h2]
        simp only [Option.getD_some, List.length_append, List.length_singleton]
        simp only [List.length_cons] at hlen
        omega
      obtain ⟨ih1, ih2, ih3⟩ := ih (initiate_payment st user s.1 s.2).2
        (fun p hp => hsubs p (List.mem_cons_of_mem s hp)) hold' hlen'
      rw [runInitiates_cons]
      refine ⟨?_, ?_, ?_⟩
      · intro r hr
        rcases List.mem_cons.mp hr with hr | hr
        · rw [hr]; exact h1
        · exact ih1 r hr
      · rw [ih2, h2]
        simp [List.append_assoc]
      · rw [ih3, h3]

theorem runInitiates_spaced (user : String) :
    ∀ (subs : List (Nat × PaymentRequest)) (st : SysState),
      (∀ t ∈ (lookupUserReqs st.user_requests user).getD [],
        ∀ p ∈ subs, t + WINDOW ≤ p.1) →
      List.Pairwise (fun p q : Nat × PaymentRequest => p.1 + WINDOW < q.1) subs →
      ∀ r ∈ (runInitiates st user subs).1, r ≠ .rateLimited := by
  intro subs
  induction subs with
  | nil => intro st _ _ r hr; simp [runInitiates] at hr
  | cons s rest ih =>
      intro st hold hpair
      have hfilter : ((lookupUserReqs st.user_requests user).getD []).filter
          (fun t => s.1 - t < WINDOW) = [] :=
        filter_window_none (fun t ht => hold t ht s (List.mem_cons_self s rest))
      have hflen : (((lookupUserReqs st.user_requests user).getD []).filter
          (fun t => s.1 - t < WINDOW)).length < RATE_LIMIT := by
        rw [hfilter]
        decide
      obtain ⟨h1, h2, _⟩ := initiate_accept st user s.1 s.2 hflen
      rw [hfilter] at h2
      have hpair' := (List.pairwise_cons.mp hpair)
      have hold' : ∀ t ∈ (lookupUserReqs
          (initiate_payment st user s.1 s.2).2.user_requests user).getD [],
          ∀ p ∈ rest, t + WINDOW ≤ p.1 := by
        rw [h2]
        intro t ht p hp
        simp only [Option.getD_some, List.nil_append, List.mem_singleton] at ht
        rw [ht]
        exact le_of_lt (hpair'.1 p hp)
      intro r hr
      rw [runInitiates_cons] at hr
      rcases List.mem_cons.mp hr with hr | hr
      · rw [hr]; exact h1
      · exact ih (initiate_payment st user s.1 s.2).2 hold' hpair'.2 r hr

/-- C7: per-principal rate limiting with window 60 and threshold 10.
With no prior history for the principal: (i) for 11 submissions whose
timestamps all lie within one window, the first 10 are not rate-limited,
the 11th is rejected with `RateLimited`, and the rate-limit-hit counter
ends exactly one above its initial value; (ii) for 10 submissions each
spaced beyond the window from all previous ones, none is rejected. -/
theorem c7_rate_limiting :
    (RATE_LIMIT = 10 ∧ WINDOW = 60) ∧
    (∀ (st : SysState) (user : String) (a : Nat) (first10 : List (Nat × PaymentRequest))
        (t11 : Nat) (r11 : PaymentRequest),
      (lookupUserReqs st.user_requests user).getD [] = [] →
      first10.length = RATE_LIMIT →
      (∀ p ∈ first10, a ≤ p.1 ∧ p.1 < a + WINDOW) →
      a ≤ t11 → t11 < a + WINDOW →
      (∀ r ∈ (runInitiates st user first10).1, r ≠ .rateLimited) ∧
      (runInitiates st user (first10 ++ [(t11, r11)])).1 =
        (runInitiates st user first10).1 ++ [.rateLimited] ∧
      (runInitiates st user (first10 ++ [(t11, r11)])).2.metrics.rate_limit_hits =
        st.metrics.rate_limit_hits + 1) ∧
    (∀ (st : SysState) (user : String) (subs : List (Nat × PaymentRequest)),
      (lookupUserReqs st.user_requests user).getD [] = [] →
      subs.length = RATE_LIMIT →
      List.Pairwise (fun p q : Nat × PaymentRequest => p.1 + WINDOW < q.1) subs →
      ∀ r ∈ (runInitiates st user subs).1, r ≠ .rateLimited) := by
  refine ⟨⟨rfl, rfl⟩, ?_, ?_⟩
  · intro st user a first10 t11 r11 hfresh hlen hsubs ht1 ht2
    obtain ⟨hacc, hlook, hhits⟩ := runInitiates_accepts user a first10 st hsubs
      (by rw [hfresh]; intro t ht; simp at ht)
      (by rw [hfresh, hlen]; simp)
    have hmem : ∀ t ∈ (lookupUserReqs
        (runInitiates st user first10).2.user_requests user).getD [], a ≤ t := by
      rw [hlook, hfresh]
      intro t ht
      simp only [List.nil_append, List.mem_map] at ht
      obtain ⟨p, hp, hpt⟩ := ht
      rw [← hpt]
      exact (hsubs p hp).1
    have hfl : RATE_LIMIT ≤ (((lookupUserReqs
        (runInitiates st user first10).2.user_requests user).getD []).filter
        (fun t => t11 - t < WINDOW)).length := by
      rw [filter_window_all hmem ht2, hlook, hfresh]
      simp [hlen]
    obtain ⟨hr1, hr2⟩ := initiate_reject (runInitiates st user first10).2 user t11 r11 hfl
    refine ⟨hacc, ?_, ?_⟩
    · rw [runInitiates_append, runInitiates_cons]
      simp [runInitiates, hr1]
    · rw [runInitiates_append, runInitiates_cons]
      show (runInitiates (initiate_payment
          (runInitiates st user first10).2 user t11 r11).2 user []).2.metrics.rate_limit_hits =
        st.metrics.rate_limit_hits + 1
      simp only [runInitiates]
      rw [hr2, hhits]
  · intro st user subs hfresh _ hpair
    exact runInitiates_spaced user subs st
      (by rw [hfresh]; intro t ht; simp at ht) hpair

/-- Witness for C7: principal "u" starting fresh; 11 submissions at clocks
0..10 (all within one 60-unit window) see the 11th rejected with the
counter bumped once, and 10 submissions at clocks 0, 61, 122, ... (each
beyond the window from all previous ones) see none rejected. -/
theorem c7_rate_limiting_witness :
    ((lookupUserReqs sysInit.user_requests "u").getD [] = [] ∧
      ([(0, reqSimple), (1, reqSimple), (2, reqSimple), (3, reqSimple), (4, reqSimple),
        (5, reqSimple), (6, reqSimple), (7, reqSimple), (8, reqSimple),
        (9, reqSimple)] : List (Nat × PaymentRequest)).length = RATE_LIMIT ∧
      (∀ p ∈ ([(0, reqSimple), (1, reqSimple), (2, reqSimple), (3, reqSimple), (4, reqSimple),
        (5, reqSimple), (6, reqSimple), (7, reqSimple), (8, reqSimple),
        (9, reqSimple)] : List (Nat × PaymentRequest)), 0 ≤ p.1 ∧ p.1 < 0 + WINDOW)) ∧
    ((∀ r ∈ (runInitiates sysInit "u"
        [(0, reqSimple), (1, reqSimple), (2, reqSimple), (3, reqSimple), (4, reqSimple),
         (5, reqSimple), (6, reqSimple), (7, reqSimple), (8, reqSimple), (9, reqSimple)]).1,
        r ≠ .rateLimited) ∧
      (runInitiates sysInit "u"
        ([(0, reqSimple), (1, reqSimple), (2, reqSimple), (3, reqSimple), (4, reqSimple),
          (5, reqSimple), (6, reqSimple), (7, reqSimple), (8, reqSimple), (9, reqSimple)] ++
          [(10, reqSimple)])).1 =
        (runInitiates sysInit "u"
          [(0, reqSimple), (1, reqSimple), (2, reqSimple), (3, reqSimple), (4, reqSimple),
           (5, reqSimple), (6, reqSimple), (7, reqSimple), (8, reqSimple),
           (9, reqSimple)]).1 ++ [.rateLimited] ∧
      (runInitiates sysInit "u"
        ([(0, reqSimple), (1, reqSimple), (2, reqSimple), (3, reqSimple), (4, reqSimple),
          (5, reqSimple), (6, reqSimple), (7, reqSimple), (8, reqSimple), (9, reqSimple)] ++
          [(10, reqSimple)])).2.metrics.rate_limit_hits =
        sysInit.metrics.rate_limit_hits + 1) ∧
    (∀ r ∈ (runInitiates sysInit "u"
        [(0, reqSimple), (61, reqSimple), (122, reqSimple), (183, reqSimple),
         (244, reqSimple), (305, reqSimple), (366, reqSimple), (427, reqSimple),
         (488, reqSimple), (549, reqSimple)]).1, r ≠ .rateLimited) :=
  ⟨⟨by decide, by decide, by decide⟩,
    c7_rate_limiting.2.1 sysInit "u" 0
      [(0, reqSimple), (1, reqSimple), (2, reqSimple), (3, reqSimple), (4, reqSimple),
       (5, reqSimple), (6, reqSimple), (7, reqSimple), (8, reqSimple), (9, reqSimple)]
      10 reqSimple (by decide) (by decide) (by decide) (by decide) (by decide),
    c7_rate_limiting.2.2 sysInit "u"
      [(0, reqSimple), (61, reqSimple), (122, reqSimple), (183, reqSimple),
       (244, reqSimple), (305, reqSimple), (366, reqSimple), (427, reqSimple),
       (488, reqSimple), (549, reqSimple)]
      (by decide) (by decide) (by decide)⟩

/-! ### Fraud screen (C8) -/

/-- C8: for a request that passes the rate limit and has amount 10000.01
with a denylisted destination, the rejection reports BOTH flags together -
`high_amount` first, then `suspicious_account` - the fraud-block counter
is incremented by one, and the audit log gains the `fraud_detected` entry
carrying both flags. -/
theorem c8_fraud_reports_all_rules (st : SysState) (user : String) (now : Nat)
    (req : PaymentRequest)
    (hrl : ((((lookupUserReqs st.user_requests user).getD []).filter
        (fun t => now - t < WINDOW)).length) < RATE_LIMIT)
    (hamount : req.amount = 10000.01)
    (hacct : req.to_account ∈ SUSPICIOUS_ACCOUNTS) :
    (initiate_payment st user now req).1 =
      .fraudDetected ["high_amount", "suspicious_account"] ∧
    (initiate_payment st user now req).2.metrics.fraud_blocks =
      st.metrics.fraud_blocks + 1 ∧
    (initiate_payment st user now req).2.audit_log =
      st.audit_log ++
        [{ timestamp := now
           user := some user
           action := "fraud_detected"
           details := .fraud_detected ["high_amount", "suspicious_account"] req }] := by
  have hlt : FRAUD_AMOUNT < req.amount := by
    rw [hamount]
    norm_num [FRAUD_AMOUNT]
  have hflags : fraud_flags req = ["high_amount", "suspicious_account"] := by
    simp [fraud_flags, hlt, hacct]
  obtain ⟨hb, _, hmet, haudit⟩ := rateLimitPhase_true st user now hrl
  rw [initiate_payment_fraud hb (by rw [hflags]; simp)]
  refine ⟨by rw [hflags], ?_, ?_⟩
  · simp [log_action, hmet]
  · simp [log_action, haudit, hflags]

/-- Witness for C8: the fresh principal "u" submits `reqFraud`
(amount 10000.01 to "FAKE123"); both flags are reported together and the
fraud counter goes from 0 to 1. -/
theorem c8_fraud_reports_all_rules_witness :
    (((((lookupUserReqs sysInit.user_requests "u").getD []).filter
        (fun t => 0 - t < WINDOW)).length) < RATE_LIMIT ∧
      reqFraud.amount = 10000.01 ∧
      reqFraud.to_account ∈ SUSPICIOUS_ACCOUNTS) ∧
    ((initiate_payment sysInit "u" 0 reqFraud).1 =
        .fraudDetected ["high_amount", "suspicious_account"] ∧
      (initiate_payment sysInit "u" 0 reqFraud).2.metrics.fraud_blocks =
        sysInit.metrics.fraud_blocks + 1 ∧
      (initiate_payment sysInit "u" 0 reqFraud).2.audit_log =
        sysInit.audit_log ++
          [{ timestamp := 0
             user := some "u"
             action := "fraud_detected"
             details := .fraud_detected ["high_amount", "suspicious_account"] reqFraud }]) :=
  ⟨⟨by decide, rfl, by decide⟩,
    c8_fraud_reports_all_rules sysInit "u" 0 reqFraud (by decide) rfl (by decide)⟩

/-! ### Currency conversion (C9) -/

theorem round2_of_intCast {q : ℚ} {n : ℤ} (h : q * 100 = (n : ℚ)) :
    round2 q = (n : ℚ) / 100 := by
  simp only [round2]
  rw [h, Int.floor_intCast, sub_self]
  rw [if_pos (by norm_num : (0 : ℚ) < 1 / 2)]

/-- C9: currency conversion on the single-payment path, for a request that
passes the rate limit and the fraud screen. (a) If a target currency is
requested that differs from the source (and is non-empty) and the pair has
a rate, the response carries that rate and a converted amount equal to
amount × rate rounded to 2 decimal places, and echoes the target currency.
(b) If the pair has no rate, the request is rejected (UnsupportedCurrency
Pair, HTTP 400), no payment is created and the failure is audited.
(c) If no target currency is requested, the converted amount equals the
amount, the rate is absent and the target currency defaults to the source
currency. -/
theorem c9_currency_conversion :
    (∀ (st : SysState) (user : String) (now : Nat) (req : PaymentRequest)
        (t : String) (r : ℚ),
      ((((lookupUserReqs st.user_requests user).getD []).filter
          (fun t => now - t < WINDOW)).length) < RATE_LIMIT →
      fraud_flags req = [] →
      req.target_currency = some t → t ≠ "" → t ≠ req.currency →
      get_fx_rate req.currency t = some r →
      ∃ ps, (initiate_payment st user now req).1 = .ok ps ∧
        ps.fx_rate = some r ∧
        ps.converted_amount = some (round2 (req.amount * r)) ∧
        ps.target_currency = some t) ∧
    (∀ (st : SysState) (user : String) (now : Nat) (req : PaymentRequest) (t : String),
      ((((lookupUserReqs st.user_requests user).getD []).filter
          (fun t => now - t < WINDOW)).length) < RATE_LIMIT →
      fraud_flags req = [] →
      req.target_currency = some t → t ≠ "" → t ≠ req.currency →
      get_fx_rate req.currency t = none →
      (initiate_payment st user now req).1 = .fxUnavailable ∧
      (initiate_payment st user now req).2.cbs_adapter = st.cbs_adapter ∧
      (initiate_payment st user now req).2.audit_log =
        st.audit_log ++
          [{ timestamp := now
             user := some user
             action := "initiate_payment_failed"
             details := .initiate_payment_failed "FX rate not found" req }]) ∧
    (∀ (st : SysState) (user : String) (now : Nat) (req : PaymentRequest),
      ((((lookupUserReqs st.user_requests user).getD []).filter
          (fun t => now - t < WINDOW)).length) < RATE_LIMIT →
      fraud_flags req = [] →
      req.target_currency = none →
      ∃ ps, (initiate_payment st user now req).1 = .ok ps ∧
        ps.fx_rate = none ∧
        ps.converted_amount = some req.amount ∧
        ps.target_currency = some req.currency) := by
  refine ⟨?_, ?_, ?_⟩
  · intro st user now req t r hrl hf htc ht1 ht2 hr
    have hb := (rateLimitPhase_true st user now hrl).1
    have hfx : fxStep req = some (some r, round2 (req.amount * r)) := by
      simp [fxStep, htc, ht1, ht2, hr]
    refine ⟨_, by rw [initiate_payment_ok hb hf hfx], rfl, rfl, ?_⟩
    show some (pyOrStr req.target_currency req.currency) = some t
    rw [htc]
    simp [pyOrStr, ht1]
  · intro st user now req t hrl hf htc ht1 ht2 hr
    have hb := (rateLimitPhase_true st user now hrl).1
    have haudit := (rateLimitPhase_true st user now hrl).2.2.2
    have hfx : fxStep req = none := by
      simp [fxStep, htc, ht1, ht2, hr]
    rw [initiate_payment_fxfail hb hf hfx]
    refine ⟨rfl, ?_, ?_⟩
    · rw [log_action_cbs]
      exact rateLimitPhase_cbs st user now
    · simp [log_action, haudit]
  · intro st user now req hrl hf htc
    have hb := (rateLimitPhase_true st user now hrl).1
    have hfx : fxStep req = some (none, req.amount) := by
      simp [fxStep, htc]
    refine ⟨_, by rw [initiate_payment_ok hb hf hfx], rfl, rfl, ?_⟩
    show some (pyOrStr req.target_currency req.currency) = some req.currency
    rw [htc]
    simp [pyOrStr]

/-- Witness for C9: converting 100 USD into EUR at the table rate 0.92
yields exactly 92.00; 100 USD into JPY is rejected with no payment
created; 100 USD with no target requested passes through unchanged with
target currency USD. -/
theorem c9_currency_conversion_witness :
    (get_fx_rate "USD" "EUR" = some 0.92 ∧
      ∃ ps, (initiate_payment sysInit "u" 0 reqEUR).1 = .ok ps ∧
        ps.fx_rate = some 0.92 ∧ ps.converted_amount = some 92 ∧
        ps.target_currency = some "EUR") ∧
    (get_fx_rate "USD" "JPY" = none ∧
      (initiate_payment sysInit "u" 0 reqJPY).1 = .fxUnavailable ∧
      (initiate_payment sysInit "u" 0 reqJPY).2.cbs_adapter = sysInit.cbs_adapter) ∧
    (∃ ps, (initiate_payment sysInit "u" 0 reqSimple).1 = .ok ps ∧
      ps.fx_rate = none ∧ ps.converted_amount = some reqSimple.amount ∧
      ps.target_currency = some "USD") := by
  refine ⟨⟨rfl, ?_⟩, ⟨rfl, ?_, ?_⟩, ?_⟩
  · obtain ⟨ps, h1, h2, h3, h4⟩ := c9_currency_conversion.1 sysInit "u" 0 reqEUR "EUR" 0.92
      (by decide) (by decide) rfl (by decide) (by decide) rfl
    refine ⟨ps, h1, h2, ?_, h4⟩
    rw [h3]
    have hcast : reqEUR.amount * 0.92 * 100 = ((9200 : ℤ) : ℚ) := by
      show (100 : ℚ) * 0.92 * 100 = ((9200 : ℤ) : ℚ)
      norm_num
    rw [round2_of_intCast hcast]
    norm_num
  · exact (c9_currency_conversion.2.1 sysInit "u" 0 reqJPY "JPY"
      (by decide) (by decide) rfl (by decide) (by decide) rfl).1
  · exact (c9_currency_conversion.2.1 sysInit "u" 0 reqJPY "JPY"
      (by decide) (by decide) rfl (by decide) (by decide) rfl).2.1
  · exact c9_currency_conversion.2.2 sysInit "u" 0 reqSimple
      (by decide) (by decide) rfl
